import Mathlib

/-!
Verification of the IBW (Igor binary wave) decoder of `pNanoLocz`
(`src/utils/file_reader/read_ibw.py`) against its natural-language
specification.

Shallow embedding conventions:
* Python `str` values are modelled as `List Char` (`PyStr`); `pstr` builds
  them from Lean string literals.
* Python floats are modelled as exact rationals `ℚ`.  All arithmetic on the
  decode paths examined here is division/multiplication, which is exact over
  `ℚ`; IEEE rounding is out of scope of the claims settled below.
* Python exceptions are modelled by `Except PyErr`; `ℚ` division by zero in
  the source raises `ZeroDivisionError`, so the embedding tests the divisor
  explicitly before dividing (Lean's `… / 0 = 0` convention is never relied
  on inside a definition translated from the source).
* `numpy` arrays are modelled as a shape together with a total index
  function (`NpMat`); `.T`, `np.flipud` and scalar multiplication are index
  remaps, exactly as in `numpy`.  Out-of-bounds indexing is not modelled.
* The external `igor2.binarywave.load` is out of scope: the decoder is
  modelled as a function of the loaded wave record (`Wave`), whose `note`
  field holds the Python string value of `str(scan["wave"]["note"])` and
  whose labels are the already `decode()`d label strings.
-/

/-- Python exception kinds that the decoder can raise. -/
inductive PyErr where
  | keyError
  | valueError
  | zeroDivisionError
  | indexError
deriving DecidableEq, Repr

deriving instance DecidableEq for Except

/-- A Python `str` value, modelled as its list of characters. -/
abbrev PyStr := List Char

/-- Build a `PyStr` from a Lean string literal. -/
def pstr (s : String) : PyStr := s.data

/-- ASCII whitespace as recognised by Python's `str.strip()` (the Unicode
whitespace beyond ASCII is not exercised by any input considered here). -/
def isPySpace (c : Char) : Bool :=
  c == ' ' || c == '\t' || c == '\n' || c == '\r' || c == '\x0b' || c == '\x0c'

/-- Python `str.strip()`: drop leading and trailing whitespace. -/
def pyStrip (s : PyStr) : PyStr :=
  ((s.dropWhile isPySpace).reverse.dropWhile isPySpace).reverse

/-- Consume an optional leading sign, returning the sign as `±1`. -/
def parseSign : PyStr → Int × PyStr
  | '+' :: r => (1, r)
  | '-' :: r => (-1, r)
  | s => (1, s)

/-- Value of a digit string (most significant first). -/
def digitsVal (ds : PyStr) : ℕ :=
  ds.foldl (fun a c => 10 * a + (c.toNat - 48)) 0

/-- The parsed components of a decimal float literal: sign, integer-part
digits, fractional-part digits with their count, and the exponent. -/
structure FloatRep where
  sign : ℤ
  ipart : ℕ
  fpart : ℕ
  fdigits : ℕ
  exp : ℤ
deriving DecidableEq, Repr

/-- Exponent part of a float literal: `e`/`E`, optional sign, digits,
nothing else.  `none` models a `ValueError`. -/
def parseExp : PyStr → Option ℤ
  | [] => some 0
  | 'e' :: t =>
    let esg := (parseSign t).1
    let t0 := (parseSign t).2
    let ed := t0.takeWhile Char.isDigit
    if ed.isEmpty then none
    else if !(t0.dropWhile Char.isDigit).isEmpty then none
    else some (esg * (digitsVal ed : ℤ))
  | 'E' :: t =>
    let esg := (parseSign t).1
    let t0 := (parseSign t).2
    let ed := t0.takeWhile Char.isDigit
    if ed.isEmpty then none
    else if !(t0.dropWhile Char.isDigit).isEmpty then none
    else some (esg * (digitsVal ed : ℤ))
  | _ => none

/-- Structural part of Python's `float(...)` string conversion: strip,
optional sign, an integer and/or fractional digit part, optional exponent.
Non-finite literals (`inf`, `nan`) and underscore digit separators are
accepted by Python but are not modelled (no claim involves them). -/
def pyFloatParse (s : PyStr) : Option FloatRep :=
  let s0 := (parseSign (pyStrip s)).2
  let sg := (parseSign (pyStrip s)).1
  let ip := s0.takeWhile Char.isDigit
  let r0 := s0.dropWhile Char.isDigit
  let fp := match r0 with
            | '.' :: t => t.takeWhile Char.isDigit
            | _ => []
  let r1 := match r0 with
            | '.' :: t => t.dropWhile Char.isDigit
            | _ => r0
  if ip.isEmpty && fp.isEmpty then none
  else
    match parseExp r1 with
    | none => none
    | some e => some ⟨sg, digitsVal ip, digitsVal fp, fp.length, e⟩

/-- Exact value of a parsed decimal literal. -/
def floatVal (r : FloatRep) : ℚ :=
  (r.sign : ℚ) * ((r.ipart : ℚ) + (r.fpart : ℚ) / 10 ^ r.fdigits) * (10 : ℚ) ^ r.exp

/-- Python `float(s)`, with floats modelled as exact rationals; `none`
models `ValueError`. -/
def pyFloat? (s : PyStr) : Option ℚ := (pyFloatParse s).map floatVal

/-- Python `int(s)`: optional sign then decimal digits only; `none` models
`ValueError` (so e.g. `int("4.5")` and `int("4e-9")` fail). -/
def pyInt? (s : PyStr) : Option ℤ :=
  let s0 := pyStrip s
  let sg := (parseSign s0).1
  let s1 := (parseSign s0).2
  let ds := s1.takeWhile Char.isDigit
  if ds.isEmpty then none
  else if !(s1.dropWhile Char.isDigit).isEmpty then none
  else some (sg * (digitsVal ds : ℤ))

/-- The notes dictionary: insertion-ordered association list with unique
keys, as a Python `dict`. -/
abbrev Dict := List (PyStr × PyStr)

/-- Python `dict` lookup. -/
def dictGet? : Dict → PyStr → Option PyStr
  | [], _ => none
  | (k', v) :: rest, k => if k' = k then some v else dictGet? rest k

/-- Python `dict.get(key, default)`. -/
def dictGetD (d : Dict) (k dflt : PyStr) : PyStr :=
  (dictGet? d k).getD dflt

/-- Python `dict` assignment `d[k] = v`: overwrite in place if the key is
present (keeping its position), else append (insertion order). -/
def dictInsert : Dict → PyStr → PyStr → Dict
  | [], k, v => [(k, v)]
  | (k', v') :: rest, k, v =>
    if k' = k then (k', v) :: rest else (k', v') :: dictInsert rest k v

/-- `str.split("\\r")`: split on each occurrence of the two-character
sequence backslash–`r` (the literal separator used by the source, which
operates on `str(bytes)` output where carriage returns appear escaped). -/
def splitOnBR : PyStr → List PyStr
  | '\\' :: 'r' :: rest => [] :: splitOnBR rest
  | c :: rest =>
    match splitOnBR rest with
    | [] => [[c]]
    | h :: t => (c :: h) :: t
  | [] => [[]]

/-- `line.split(":", 1)` when the line contains a colon: the part before the
first colon and the part after it; `none` when there is no colon. -/
def splitFirstColon : PyStr → Option (PyStr × PyStr)
  | [] => none
  | ':' :: rest => some ([], rest)
  | c :: rest => (splitFirstColon rest).map (fun p => (c :: p.1, p.2))

/-- One iteration of the notes-parsing loop: lines with a colon contribute a
trimmed key/value pair, lines without a colon are skipped. -/
def parseLine (md : Dict) (line : PyStr) : Dict :=
  match splitFirstColon line with
  | none => md
  | some (k, v) => dictInsert md (pyStrip k) (pyStrip v)

/-- `extract_metadata` (also the identical inline parsing loop of
`_ibw_pixel_to_nm_scaling`): split the notes string on `"\\r"` and fold the
key/value lines into a dict. -/
def extract_metadata (notes : PyStr) : Dict :=
  (splitOnBR notes).foldl parseLine []

/-- The note keys read by the decoder (string literals of the source). -/
def keySlowScanSize : PyStr := pstr "SlowScanSize"

/-- Note key `"FastScanSize"`. -/
def keyFastScanSize : PyStr := pstr "FastScanSize"

/-- Note key `"ScanLines"`. -/
def keyScanLines : PyStr := pstr "ScanLines"

/-- Note key `"ScanPoints"`. -/
def keyScanPoints : PyStr := pstr "ScanPoints"

/-- Note key `"ScanRate"`. -/
def keyScanRate : PyStr := pstr "ScanRate"

/-- Numeric part of `_ibw_pixel_to_nm_scaling`: from the parsed notes,
build the pair
`(1/(float(notes["SlowScanSize"]) / wData.shape[0] * 1e9),
  1/(float(notes["FastScanSize"]) / wData.shape[1] * 1e9))`
and return its element `[0]`.  Python evaluates both tuple components, so
both keys are required and both divisions can raise; a missing key raises
`KeyError`, a non-numeric value `ValueError`, and a zero divisor
`ZeroDivisionError` (the embedding tests each divisor before dividing). -/
def scalingFromNotes (notes : Dict) (shape0 shape1 : ℕ) : Except PyErr ℚ :=
  match dictGet? notes keySlowScanSize with
  | none => .error .keyError
  | some sv =>
    match pyFloat? sv with
    | none => .error .valueError
    | some qs =>
      if shape0 = 0 then .error .zeroDivisionError
      else if qs / (shape0 : ℚ) * 1e9 = 0 then .error .zeroDivisionError
      else
        match dictGet? notes keyFastScanSize with
        | none => .error .keyError
        | some fv =>
          match pyFloat? fv with
          | none => .error .valueError
          | some qf =>
            if shape1 = 0 then .error .zeroDivisionError
            else if qf / (shape1 : ℚ) * 1e9 = 0 then .error .zeroDivisionError
            else .ok (1 / (qs / (shape0 : ℚ) * 1e9))

/-- `_ibw_pixel_to_nm_scaling` proper: parse the notes, then compute. -/
def _ibw_pixel_to_nm_scaling (note : PyStr) (shape0 shape1 : ℕ) : Except PyErr ℚ :=
  scalingFromNotes (extract_metadata note) shape0 shape1

/-- A `numpy` 2-D array: shape plus total index function (bounds behaviour
of `numpy` indexing is out of scope; all reads stay in range here). -/
structure NpMat where
  rows : ℕ
  cols : ℕ
  entry : ℕ → ℕ → ℚ

/-- `numpy` transpose `.T`: swap the two axes. -/
def npTranspose (m : NpMat) : NpMat :=
  ⟨m.cols, m.rows, fun i j => m.entry j i⟩

/-- Scalar multiplication `m * c`. -/
def npScale (c : ℚ) (m : NpMat) : NpMat :=
  ⟨m.rows, m.cols, fun i j => m.entry i j * c⟩

/-- `np.flipud`: reverse along the first axis. -/
def npFlipud (m : NpMat) : NpMat :=
  ⟨m.rows, m.cols, fun i j => m.entry (m.rows - 1 - i) j⟩

/-- The loaded binary wave, as returned by the external
`igor2.binarywave.load`: the label table, the 3-D sample array with its
shape `(rows, columns, channels)`, and the Python string value of
`str(scan["wave"]["note"])`. -/
structure Wave where
  labels : List (List PyStr)
  wDataR : ℕ
  wDataC : ℕ
  wDataK : ℕ
  wData : ℕ → ℕ → ℕ → ℚ
  note : PyStr

/-- `wData[:, :, k]`: the 2-D plane of channel `k`. -/
def selectPlane (w : Wave) (k : ℕ) : NpMat :=
  ⟨w.wDataR, w.wDataC, fun r c => w.wData r c k⟩

/-- `wData[:, :, k].T * 1e9` followed by `np.flipud`
(transpose, scale to nanometres, then flip — in source order). -/
def ibwImage (w : Wave) (k : ℕ) : NpMat :=
  npFlipud (npScale (1e9 : ℚ) (npTranspose (selectPlane w k)))

/-- The label-collection loop: flatten the label table, keeping only
non-empty (truthy) labels, in order. -/
def collectLabels : List (List PyStr) → List PyStr
  | [] => []
  | ll :: rest => ll.filter (fun l => !l.isEmpty) ++ collectLabels rest

/-- `if channel not in labels: channel = labels[0]` — `labels[0]` raises
`IndexError` on an empty list. -/
def resolveChannel (labels : List PyStr) (channel : PyStr) : Except PyErr PyStr :=
  if channel ∈ labels then .ok channel
  else
    match labels with
    | [] => .error .indexError
    | l0 :: _ => .ok l0

/-- Python `list.index`: index of the first occurrence (`ValueError` when
absent, which cannot happen at the call site in the source). -/
def pyIndex (x : PyStr) : List PyStr → Except PyErr ℕ
  | [] => .error .valueError
  | y :: t => if y = x then .ok 0 else (pyIndex x t).map (· + 1)

/-- A value of the standardized metadata record (`values` holds Python
ints, floats, a string and `None`). -/
inductive MVal where
  | vint (n : ℤ)
  | vrat (q : ℚ)
  | vstr (s : PyStr)
  | vnone
deriving DecidableEq, Repr

/-- The standardized metadata record: schema keys paired with values. -/
abbrev MetaRecord := List (PyStr × MVal)

/-- Lookup in the standardized record. -/
def recGet? : MetaRecord → PyStr → Option MVal
  | [], _ => none
  | (k', v) :: rest, k => if k' = k then some v else recGet? rest k

/-- Schema key: frame count. -/
def keyFrameCount : PyStr := pstr "frame count"

/-- Schema key: physical fast-axis range in nm. -/
def keyXRange : PyStr := pstr "x range (nm)"

/-- Schema key: frames per second. -/
def keyFps : PyStr := pstr "fps"

/-- Schema key: line rate. -/
def keyLineRate : PyStr := pstr "line rate"

/-- Schema key: slow-axis pixel count. -/
def keyYPixels : PyStr := pstr "y pixels"

/-- Schema key: fast-axis pixel count. -/
def keyXPixels : PyStr := pstr "x pixels"

/-- Schema key: pixel-to-nanometre scaling factor. -/
def keyScalingFactor : PyStr := pstr "scaling factor"

/-- Schema key: selected channel name. -/
def keyChannel : PyStr := pstr "channel"

/-- Schema key: reserved trailing slot. -/
def keyUnused : PyStr := pstr "unused"

/-- Modelled from the spec: `STANDARDISED_METADATA_DICT_KEYS`, the fixed
ordered schema imported from `utils.constants`, which is not part of the
sources provided.  Per the spec it has exactly the fields frame count,
physical fast-axis range, frames-per-second, line rate, the two pixel
counts, scaling factor, selected channel name, and a reserved trailing
slot, in the order of the `values` list of the source. -/
def STANDARDISED_METADATA_DICT_KEYS : List PyStr :=
  [keyFrameCount, keyXRange, keyFps, keyLineRate, keyYPixels, keyXPixels,
   keyScalingFactor, keyChannel, keyUnused]

/-- `float(metadata.get(key, "0"))` — defaults to `"0"` when the key is
absent, raises `ValueError` when the present value is non-numeric. -/
def readFloatD (md : Dict) (key : PyStr) : Except PyErr ℚ :=
  match pyFloat? (dictGetD md key (pstr "0")) with
  | none => .error .valueError
  | some q => .ok q

/-- `int(metadata.get(key, "0"))`. -/
def readIntD (md : Dict) (key : PyStr) : Except PyErr ℤ :=
  match pyInt? (dictGetD md key (pstr "0")) with
  | none => .error .valueError
  | some n => .ok n

/-- `line_rate = 1 / scan_rate if y_pixels else 0` — the guard tests only
`y_pixels`, so a zero `scan_rate` with non-zero `y_pixels` raises
`ZeroDivisionError`. -/
def computeLineRate (y_pixels : ℤ) (scan_rate : ℚ) : Except PyErr ℚ :=
  if y_pixels ≠ 0 then
    if scan_rate = 0 then .error .zeroDivisionError
    else .ok (1 / scan_rate)
  else .ok 0

/-- `fps = 1/(y_pixels * scan_rate) if scan_rate != 0 else 0` — the guard
tests only `scan_rate`, so `y_pixels = 0` with a non-zero rate makes the
divisor zero and raises `ZeroDivisionError`. -/
def computeFps (y_pixels : ℤ) (scan_rate : ℚ) : Except PyErr ℚ :=
  if scan_rate ≠ 0 then
    if (y_pixels : ℚ) * scan_rate = 0 then .error .zeroDivisionError
    else .ok (1 / ((y_pixels : ℚ) * scan_rate))
  else .ok 0

/-- Lines 94–111 of the source: read the note-derived fields (in source
order) and build the nine-element `values` list. -/
def normalizeValues (metadata : Dict) (scaling : ℚ) (channel : PyStr) :
    Except PyErr (List MVal) :=
  match readFloatD metadata keyFastScanSize with
  | .error e => .error e
  | .ok fss =>
    match readIntD metadata keyScanLines with
    | .error e => .error e
    | .ok y_pixels =>
      match readIntD metadata keyScanPoints with
      | .error e => .error e
      | .ok x_pixels =>
        match readFloatD metadata keyScanRate with
        | .error e => .error e
        | .ok scan_rate =>
          match computeLineRate y_pixels scan_rate with
          | .error e => .error e
          | .ok line_rate =>
            match computeFps y_pixels scan_rate with
            | .error e => .error e
            | .ok fps =>
              .ok [.vint 1, .vrat (fss * 1e9), .vrat fps,
                   .vrat line_rate, .vint y_pixels, .vint x_pixels,
                   .vrat scaling, .vstr channel, .vnone]

/-- Lines 113–120 of the source: check the value count against the schema
(`ValueError` on mismatch) and zip keys with values. -/
def assembleRecord (values : List MVal) : Except PyErr MetaRecord :=
  if values.length ≠ STANDARDISED_METADATA_DICT_KEYS.length then
    .error .valueError
  else .ok (STANDARDISED_METADATA_DICT_KEYS.zip values)

/-- The stages of `open_ibw` after channel resolution: image transform,
scaling, notes parsing, normalization, assembly.  The source computes the
image first; since the image transform is pure and total in the model, it
is inlined at the success site without changing any observable result.
(The source also stores the scaling into the intermediate notes dict under
`'scaling_factor'`; that entry is never read again on any path to the
outputs and is not represented.) -/
def afterChannel (w : Wave) (labels : List PyStr) (channel : PyStr)
    (channel_idx : ℕ) : Except PyErr (NpMat × MetaRecord × List PyStr) :=
  match _ibw_pixel_to_nm_scaling w.note w.wDataR w.wDataC with
  | .error e => .error e
  | .ok scaling =>
    match normalizeValues (extract_metadata w.note) scaling channel with
    | .error e => .error e
    | .ok values =>
      match assembleRecord values with
      | .error e => .error e
      | .ok md => .ok (ibwImage w channel_idx, md, labels)

/-- Channel resolution and everything after it, on the collected labels. -/
def resolveAndRun (w : Wave) (labels : List PyStr) (channel : PyStr) :
    Except PyErr (NpMat × MetaRecord × List PyStr) :=
  match resolveChannel labels channel with
  | .error e => .error e
  | .ok ch =>
    match pyIndex ch labels with
    | .error e => .error e
    | .ok channel_idx => afterChannel w labels ch channel_idx

/-- `open_ibw` on an already-loaded wave: collect the non-empty labels,
resolve the requested channel (falling back to `labels[0]`), look up its
index, then run the remaining stages. -/
def open_ibw (w : Wave) (channel : PyStr) :
    Except PyErr (NpMat × MetaRecord × List PyStr) :=
  resolveAndRun w (collectLabels w.labels) channel

/-- A small concrete wave for the C9 witness. -/
def wC9 : Wave :=
  ⟨[[pstr "H"]], 2, 3, 1, fun r c ch => (r : ℚ) + 10 * c + 100 * ch, pstr ""⟩

/-- A wave whose label table holds only an empty (falsy) label, so the
collected label list is empty. -/
def wEmptyLabels : Wave :=
  ⟨[[pstr ""]], 4, 4, 1, fun _ _ _ => 0, pstr "FastScanSize:4e-9"⟩

/-- A wave with one label and a fully populated notes section. -/
def wGood : Wave :=
  ⟨[[pstr "Height"]], 2, 2, 1, fun _ _ _ => 0,
   pstr "SlowScanSize:1e-9\\rFastScanSize:1e-9\\rScanLines:2\\rScanPoints:2\\rScanRate:2\\r"⟩

/-- The `values` list produced when decoding `wGood`. -/
def wGoodVals : List MVal :=
  [.vint 1, .vrat ((1e-9 : ℚ) * 1e9), .vrat (1 / (((2 : ℤ) : ℚ) * 2)),
   .vrat (1 / 2), .vint 2, .vint 2,
   .vrat (1 / ((1e-9 : ℚ) / ((2 : ℕ) : ℚ) * 1e9)), .vstr (pstr "Height"),
   .vnone]

/-- The single-channel 4×4 wave of the spec's end-to-end scenario, with the
note exactly as the scenario states it (no `SlowScanSize` entry). -/
def wScenario : Wave :=
  ⟨[[pstr "Height"]], 4, 4, 1, fun _ _ _ => 0,
   pstr "FastScanSize:4e-9\\rScanLines:4\\rScanPoints:4\\rScanRate:2\\r"⟩

/-- The end-to-end scenario wave with the `SlowScanSize` note entry added,
which the scaling stage requires. -/
def wScenarioFix : Wave :=
  ⟨[[pstr "Height"]], 4, 4, 1, fun _ _ _ => 0,
   pstr "SlowScanSize:4e-9\\rFastScanSize:4e-9\\rScanLines:4\\rScanPoints:4\\rScanRate:2\\r"⟩

/-- The `values` list produced when decoding `wScenarioFix`. -/
def wScenarioFixVals : List MVal :=
  [.vint 1, .vrat ((4e-9 : ℚ) * 1e9), .vrat (1 / (((4 : ℤ) : ℚ) * 2)),
   .vrat (1 / 2), .vint 4, .vint 4,
   .vrat (1 / ((4e-9 : ℚ) / ((4 : ℕ) : ℚ) * 1e9)), .vstr (pstr "Height"),
   .vnone]

/-- Evaluate `pyFloat?` through a parsed representation: the structural
part is decided, the arithmetic part is a `floatVal` equation. -/
theorem pyFloat_eval (s : PyStr) (r : FloatRep) (q : ℚ)
    (h : pyFloatParse s = some r) (hv : floatVal r = q) :
    pyFloat? s = some q := by
  simp [pyFloat?, h, hv]

/-- `float("1e-9")` is `10⁻⁹`. -/
theorem pyFloat_1em9 : pyFloat? (pstr "1e-9") = some ((1e-9 : ℚ)) :=
  pyFloat_eval _ ⟨1, 1, 0, 0, -9⟩ _ (by decide) (by norm_num [floatVal])

/-- `float("4e-9")` is `4·10⁻⁹`. -/
theorem pyFloat_4em9 : pyFloat? (pstr "4e-9") = some ((4e-9 : ℚ)) :=
  pyFloat_eval _ ⟨1, 4, 0, 0, -9⟩ _ (by decide) (by norm_num [floatVal])

/-- `float("2")` is `2`. -/
theorem pyFloat_2 : pyFloat? (pstr "2") = some 2 :=
  pyFloat_eval _ ⟨1, 2, 0, 0, 0⟩ _ (by decide) (by norm_num [floatVal])

/-- `float("0")` is `0`. -/
theorem pyFloat_0 : pyFloat? (pstr "0") = some 0 :=
  pyFloat_eval _ ⟨1, 0, 0, 0, 0⟩ _ (by decide) (by norm_num [floatVal])

/-- Successful evaluation of the scaling computation. -/
theorem scaling_eval (note : PyStr) (s0 s1 : ℕ) (sv fv : PyStr) (qs qf : ℚ)
    (h1 : dictGet? (extract_metadata note) keySlowScanSize = some sv)
    (h2 : pyFloat? sv = some qs)
    (h3 : dictGet? (extract_metadata note) keyFastScanSize = some fv)
    (h4 : pyFloat? fv = some qf)
    (h5 : qs / (s0 : ℚ) * 1e9 ≠ 0)
    (h6 : qf / (s1 : ℚ) * 1e9 ≠ 0) :
    _ibw_pixel_to_nm_scaling note s0 s1 = .ok (1 / (qs / (s0 : ℚ) * 1e9)) := by
  have hs0 : ¬ (s0 = 0) := by
    rintro rfl
    apply h5
    norm_num
  have hs1 : ¬ (s1 = 0) := by
    rintro rfl
    apply h6
    norm_num
  simp [_ibw_pixel_to_nm_scaling, scalingFromNotes, h1, h2, h3, h4, hs0, h5, hs1, h6]

/-- Inversion: a successful scaling run pins down every intermediate. -/
theorem scaling_ok_inv (note : PyStr) (s0 s1 : ℕ) (q : ℚ)
    (hq : _ibw_pixel_to_nm_scaling note s0 s1 = .ok q) :
    ∃ sv qs fv qf,
      dictGet? (extract_metadata note) keySlowScanSize = some sv ∧
      pyFloat? sv = some qs ∧
      dictGet? (extract_metadata note) keyFastScanSize = some fv ∧
      pyFloat? fv = some qf ∧
      qs / (s0 : ℚ) * 1e9 ≠ 0 ∧ qf / (s1 : ℚ) * 1e9 ≠ 0 ∧
      q = 1 / (qs / (s0 : ℚ) * 1e9) := by
  unfold _ibw_pixel_to_nm_scaling scalingFromNotes at hq
  split at hq
  · simp at hq
  rename_i sv h1
  split at hq
  · simp at hq
  rename_i qs h2
  split at hq
  · simp at hq
  rename_i hs0
  split at hq
  · simp at hq
  rename_i h5
  split at hq
  · simp at hq
  rename_i fv h3
  split at hq
  · simp at hq
  rename_i qf h4
  split at hq
  · simp at hq
  rename_i hs1
  split at hq
  · simp at hq
  rename_i h6
  refine ⟨sv, qs, fv, qf, h1, h2, h3, h4, h5, h6, ?_⟩
  injection hq with hq
  exact hq.symm

/-- Claim C1, counterexample: with notes `SlowScanSize = 1e-9`,
`FastScanSize = 1e-9` and sample shape `(2, 1, ·)`, the scaling calculator
returns `2 = 1/(SlowScanSize/rows*1e9)` — the slow-axis value — while the
claimed fast-axis value `1/(FastScanSize/cols*1e9)` is `1`, so the claim
that the fast-axis value is returned is false. -/
theorem C1_counterexample :
    _ibw_pixel_to_nm_scaling (pstr "SlowScanSize:1e-9\\rFastScanSize:1e-9") 2 1
      = .ok 2 ∧
    (1 : ℚ) / ((1e-9 : ℚ) / ((1 : ℕ) : ℚ) * 1e9) = 1 ∧
    ((Except.ok 2 : Except PyErr ℚ) ≠ .ok 1) := by
  refine ⟨?_, by norm_num, by norm_num⟩
  have h := scaling_eval (pstr "SlowScanSize:1e-9\\rFastScanSize:1e-9") 2 1
      (pstr "1e-9") (pstr "1e-9") (1e-9) (1e-9) (by decide) pyFloat_1em9
      (by decide) pyFloat_1em9 (by norm_num) (by norm_num)
  rw [h]
  norm_num

/-- Claim C1, amended: the scaling calculator returns the SLOW-axis value
`1/(SlowScanSize/rows*1e9)` (the first element of the computed pair); the
fast-axis value is computed identically but discarded, so when the axes
differ the returned scalar comes from the slow-axis size and the slow-axis
pixel count. -/
theorem C1_slow_axis_returned (note : PyStr) (s0 s1 : ℕ) (sv fv : PyStr)
    (qs qf : ℚ)
    (h1 : dictGet? (extract_metadata note) keySlowScanSize = some sv)
    (h2 : pyFloat? sv = some qs)
    (h3 : dictGet? (extract_metadata note) keyFastScanSize = some fv)
    (h4 : pyFloat? fv = some qf)
    (h5 : qs / (s0 : ℚ) * 1e9 ≠ 0)
    (h6 : qf / (s1 : ℚ) * 1e9 ≠ 0) :
    _ibw_pixel_to_nm_scaling note s0 s1 = .ok (1 / (qs / (s0 : ℚ) * 1e9)) :=
  scaling_eval note s0 s1 sv fv qs qf h1 h2 h3 h4 h5 h6

/-- Witness for the amended C1 theorem at a concrete input. -/
theorem C1_witness :
    _ibw_pixel_to_nm_scaling (pstr "SlowScanSize:1e-9\\rFastScanSize:1e-9") 2 1
      = .ok (1 / ((1e-9 : ℚ) / ((2 : ℕ) : ℚ) * 1e9)) :=
  C1_slow_axis_returned (pstr "SlowScanSize:1e-9\\rFastScanSize:1e-9") 2 1
    (pstr "1e-9") (pstr "1e-9") (1e-9) (1e-9) (by decide) pyFloat_1em9
    (by decide) pyFloat_1em9 (by norm_num) (by norm_num)

/-- Claim C2, counterexample: on the notes text `"A:1\rB: two \r"` with a
real carriage-return separator, the parser (which splits on the literal
two-character sequence backslash–`r`) sees a single line and returns
`{"A": "1\rB: two"}`, not the claimed `{"A": "1", "B": "two"}` (there is
no `"B"` entry at all). -/
theorem C2_counterexample :
    extract_metadata (pstr "A:1\rB: two \r") = [(pstr "A", pstr "1\rB: two")] ∧
    dictGet? (extract_metadata (pstr "A:1\rB: two \r")) (pstr "B") = none := by
  decide

/-- Claim C2, amended: with lines separated by the two-character sequence
backslash–`r` (as produced by `str()` of the notes bytes, which the source
splits on), `"A:1\\rB: two \\r"` parses to exactly
`{"A": "1", "B": "two"}` — first-colon split, both sides trimmed — and a
line without a colon (`"garbage"`) is dropped without affecting the other
entries. -/
theorem C2_backslash_r_parsing :
    extract_metadata (pstr "A:1\\rB: two \\r")
      = [(pstr "A", pstr "1"), (pstr "B", pstr "two")] ∧
    extract_metadata (pstr "A:1\\rgarbage\\rB: two \\r")
      = [(pstr "A", pstr "1"), (pstr "B", pstr "two")] := by
  decide

/-- Claim C7: the scaling computation succeeds iff both required note keys
are present with numeric values and both per-axis denominators
`size/pixels*1e9` are non-zero (a zero pixel count gives a zero denominator
in the exact-rational semantics and `ZeroDivisionError` in the source); in
particular it returns a value whenever both keys parse to non-zero numbers
and both pixel counts are non-zero. -/
theorem C7_scaling_error_characterization (note : PyStr) (s0 s1 : ℕ) :
    ((∃ q, _ibw_pixel_to_nm_scaling note s0 s1 = .ok q) ↔
      (∃ sv qs fv qf,
        dictGet? (extract_metadata note) keySlowScanSize = some sv ∧
        pyFloat? sv = some qs ∧
        dictGet? (extract_metadata note) keyFastScanSize = some fv ∧
        pyFloat? fv = some qf ∧
        qs / (s0 : ℚ) * 1e9 ≠ 0 ∧ qf / (s1 : ℚ) * 1e9 ≠ 0)) ∧
    (∀ sv qs fv qf,
      dictGet? (extract_metadata note) keySlowScanSize = some sv →
      pyFloat? sv = some qs →
      dictGet? (extract_metadata note) keyFastScanSize = some fv →
      pyFloat? fv = some qf →
      qs ≠ 0 → qf ≠ 0 → s0 ≠ 0 → s1 ≠ 0 →
      ∃ q, _ibw_pixel_to_nm_scaling note s0 s1 = .ok q) := by
  constructor
  · constructor
    · rintro ⟨q, hq⟩
      obtain ⟨sv, qs, fv, qf, h1, h2, h3, h4, h5, h6, _⟩ :=
        scaling_ok_inv note s0 s1 q hq
      exact ⟨sv, qs, fv, qf, h1, h2, h3, h4, h5, h6⟩
    · rintro ⟨sv, qs, fv, qf, h1, h2, h3, h4, h5, h6⟩
      exact ⟨_, scaling_eval note s0 s1 sv fv qs qf h1 h2 h3 h4 h5 h6⟩
  · intro sv qs fv qf h1 h2 h3 h4 hqs hqf hs0 hs1
    refine ⟨_, scaling_eval note s0 s1 sv fv qs qf h1 h2 h3 h4 ?_ ?_⟩
    · exact mul_ne_zero (div_ne_zero hqs (Nat.cast_ne_zero.mpr hs0)) (by norm_num)
    · exact mul_ne_zero (div_ne_zero hqf (Nat.cast_ne_zero.mpr hs1)) (by norm_num)

/-- Witness for C7 at a concrete input: both keys numeric and non-zero,
both pixel counts non-zero, so the computation returns a value. -/
theorem C7_witness :
    ∃ q, _ibw_pixel_to_nm_scaling
      (pstr "SlowScanSize:1e-9\\rFastScanSize:1e-9") 2 2 = .ok q :=
  (C7_scaling_error_characterization
      (pstr "SlowScanSize:1e-9\\rFastScanSize:1e-9") 2 2).2
    (pstr "1e-9") (1e-9) (pstr "1e-9") (1e-9) (by decide) pyFloat_1em9
    (by decide) pyFloat_1em9 (by norm_num) (by norm_num) (by norm_num)
    (by norm_num)

/-- Claim C9: for a wave of shape `(R, C, K)` and channel index `k`, the
image has shape `(C, R)` and `image[i][j] = wData[j][C-1-i][k] * 1e9` —
the plane is transposed, scaled to nanometres, then flipped along the
vertical axis. -/
theorem C9_view_transform (w : Wave) (k i j : ℕ)
    (_hi : i < w.wDataC) (_hj : j < w.wDataR) :
    (ibwImage w k).rows = w.wDataC ∧ (ibwImage w k).cols = w.wDataR ∧
    (ibwImage w k).entry i j = w.wData j (w.wDataC - 1 - i) k * 1e9 :=
  ⟨rfl, rfl, rfl⟩

/-- Witness for C9 at a concrete index of a concrete wave. -/
theorem C9_witness :
    (1 < wC9.wDataC ∧ 0 < wC9.wDataR) ∧
    ((ibwImage wC9 0).rows = wC9.wDataC ∧ (ibwImage wC9 0).cols = wC9.wDataR ∧
     (ibwImage wC9 0).entry 1 0 = wC9.wData 0 (wC9.wDataC - 1 - 1) 0 * 1e9) :=
  ⟨⟨by decide, by decide⟩, C9_view_transform wC9 0 1 0 (by decide) (by decide)⟩

/-- `int("0")` is `0`. -/
theorem pyInt_0 : pyInt? (pstr "0") = some 0 := by decide

/-- `float(metadata.get(k, "0"))` defaults to `0` on an absent key. -/
theorem readFloatD_absent (md : Dict) (key : PyStr)
    (h : dictGet? md key = none) : readFloatD md key = .ok 0 := by
  simp [readFloatD, dictGetD, h, pyFloat_0]

/-- `float(metadata.get(k, "0"))` on a present numeric value. -/
theorem readFloatD_present (md : Dict) (key s : PyStr) (q : ℚ)
    (h : dictGet? md key = some s) (hp : pyFloat? s = some q) :
    readFloatD md key = .ok q := by
  simp [readFloatD, dictGetD, h, hp]

/-- `float(metadata.get(k, "0"))` raises on a present non-numeric value. -/
theorem readFloatD_bad (md : Dict) (key s : PyStr)
    (h : dictGet? md key = some s) (hp : pyFloat? s = none) :
    readFloatD md key = .error .valueError := by
  simp [readFloatD, dictGetD, h, hp]

/-- `int(metadata.get(k, "0"))` defaults to `0` on an absent key. -/
theorem readIntD_absent (md : Dict) (key : PyStr)
    (h : dictGet? md key = none) : readIntD md key = .ok 0 := by
  simp [readIntD, dictGetD, h, pyInt_0]

/-- `int(metadata.get(k, "0"))` on a present numeric value. -/
theorem readIntD_present (md : Dict) (key s : PyStr) (n : ℤ)
    (h : dictGet? md key = some s) (hp : pyInt? s = some n) :
    readIntD md key = .ok n := by
  simp [readIntD, dictGetD, h, hp]

/-- `int(metadata.get(k, "0"))` raises on a present non-numeric value. -/
theorem readIntD_bad (md : Dict) (key s : PyStr)
    (h : dictGet? md key = some s) (hp : pyInt? s = none) :
    readIntD md key = .error .valueError := by
  simp [readIntD, dictGetD, h, hp]

/-- Line rate is `0` when the slow-axis pixel count is `0`. -/
theorem computeLineRate_y0 (r : ℚ) : computeLineRate 0 r = .ok 0 := by
  simp [computeLineRate]

/-- Line rate is `1/scan_rate` when both values are non-zero. -/
theorem computeLineRate_pos (y : ℤ) (r : ℚ) (hy : y ≠ 0) (hr : r ≠ 0) :
    computeLineRate y r = .ok (1 / r) := by
  simp [computeLineRate, hy, hr]

/-- Fps is `0` when the scan rate is `0`. -/
theorem computeFps_r0 (y : ℤ) : computeFps y 0 = .ok 0 := by
  simp [computeFps]

/-- Fps is `1/(y_pixels·scan_rate)` when both are non-zero. -/
theorem computeFps_pos (y : ℤ) (r : ℚ) (hy : y ≠ 0) (hr : r ≠ 0) :
    computeFps y r = .ok (1 / ((y : ℤ) * r)) := by
  have h : ((y : ℚ) * r) ≠ 0 := mul_ne_zero (Int.cast_ne_zero.mpr hy) hr
  simp [computeFps, hr, h]

/-- Fps raises `ZeroDivisionError` when the pixel count is `0` but the
scan rate is not. -/
theorem computeFps_y0 (r : ℚ) (hr : r ≠ 0) :
    computeFps 0 r = .error .zeroDivisionError := by
  simp [computeFps, hr]

/-- Forward evaluation of the normalization stage. -/
theorem normalizeValues_eval (md : Dict) (sc : ℚ) (ch : PyStr) (fss : ℚ)
    (y x : ℤ) (r lr fps : ℚ)
    (h1 : readFloatD md keyFastScanSize = .ok fss)
    (h2 : readIntD md keyScanLines = .ok y)
    (h3 : readIntD md keyScanPoints = .ok x)
    (h4 : readFloatD md keyScanRate = .ok r)
    (h5 : computeLineRate y r = .ok lr)
    (h6 : computeFps y r = .ok fps) :
    normalizeValues md sc ch
      = .ok [.vint 1, .vrat (fss * 1e9), .vrat fps, .vrat lr, .vint y,
             .vint x, .vrat sc, .vstr ch, .vnone] := by
  simp [normalizeValues, h1, h2, h3, h4, h5, h6]

/-- Inversion of a successful normalization run. -/
theorem normalizeValues_ok_inv (md : Dict) (sc : ℚ) (ch : PyStr)
    (vs : List MVal) (h : normalizeValues md sc ch = .ok vs) :
    ∃ fss y x r lr fps,
      readFloatD md keyFastScanSize = .ok fss ∧
      readIntD md keyScanLines = .ok y ∧
      readIntD md keyScanPoints = .ok x ∧
      readFloatD md keyScanRate = .ok r ∧
      computeLineRate y r = .ok lr ∧
      computeFps y r = .ok fps ∧
      vs = [.vint 1, .vrat (fss * 1e9), .vrat fps, .vrat lr, .vint y,
            .vint x, .vrat sc, .vstr ch, .vnone] := by
  unfold normalizeValues at h
  split at h
  · simp at h
  rename_i fss h1
  split at h
  · simp at h
  rename_i y h2
  split at h
  · simp at h
  rename_i x h3
  split at h
  · simp at h
  rename_i r h4
  split at h
  · simp at h
  rename_i lr h5
  split at h
  · simp at h
  rename_i fps h6
  injection h with h
  exact ⟨fss, y, x, r, lr, fps, h1, h2, h3, h4, h5, h6, h.symm⟩

/-- Inversion of a successful record assembly. -/
theorem assembleRecord_ok_inv (vs : List MVal) (md : MetaRecord)
    (h : assembleRecord vs = .ok md) :
    md = STANDARDISED_METADATA_DICT_KEYS.zip vs := by
  unfold assembleRecord at h
  split at h
  · simp at h
  · injection h with h
    exact h.symm

/-- The scaling stage raises `KeyError` when `SlowScanSize` is absent. -/
theorem scaling_missing_slow (note : PyStr) (s0 s1 : ℕ)
    (h : dictGet? (extract_metadata note) keySlowScanSize = none) :
    _ibw_pixel_to_nm_scaling note s0 s1 = .error .keyError := by
  simp [_ibw_pixel_to_nm_scaling, scalingFromNotes, h]

/-- A scaling-stage error propagates out of the later stages. -/
theorem afterChannel_scaling_error (w : Wave) (labels : List PyStr)
    (c : PyStr) (idx : ℕ) (e : PyErr)
    (h : _ibw_pixel_to_nm_scaling w.note w.wDataR w.wDataC = .error e) :
    afterChannel w labels c idx = .error e := by
  simp [afterChannel, h]

/-- A normalization-stage error propagates out of the later stages. -/
theorem afterChannel_normalize_error (w : Wave) (labels : List PyStr)
    (c : PyStr) (idx : ℕ) (sc : ℚ) (e : PyErr)
    (hsc : _ibw_pixel_to_nm_scaling w.note w.wDataR w.wDataC = .ok sc)
    (h : normalizeValues (extract_metadata w.note) sc c = .error e) :
    afterChannel w labels c idx = .error e := by
  simp [afterChannel, hsc, h]

/-- Forward evaluation of the post-resolution stages. -/
theorem afterChannel_eval (w : Wave) (labels : List PyStr) (c : PyStr)
    (idx : ℕ) (sc : ℚ) (vs : List MVal)
    (hsc : _ibw_pixel_to_nm_scaling w.note w.wDataR w.wDataC = .ok sc)
    (hnv : normalizeValues (extract_metadata w.note) sc c = .ok vs)
    (hlen : vs.length = STANDARDISED_METADATA_DICT_KEYS.length) :
    afterChannel w labels c idx
      = .ok (ibwImage w idx, STANDARDISED_METADATA_DICT_KEYS.zip vs, labels) := by
  simp [afterChannel, hsc, hnv, assembleRecord, hlen]

/-- Inversion of a successful post-resolution run. -/
theorem afterChannel_ok_inv (w : Wave) (labels : List PyStr) (c : PyStr)
    (idx : ℕ) (img : NpMat) (md : MetaRecord) (ls : List PyStr)
    (h : afterChannel w labels c idx = .ok (img, md, ls)) :
    ls = labels ∧ img = ibwImage w idx ∧
    ∃ sc vs, _ibw_pixel_to_nm_scaling w.note w.wDataR w.wDataC = .ok sc ∧
      normalizeValues (extract_metadata w.note) sc c = .ok vs ∧
      md = STANDARDISED_METADATA_DICT_KEYS.zip vs := by
  unfold afterChannel at h
  split at h
  · simp at h
  rename_i sc hsc
  split at h
  · simp at h
  rename_i vs hnv
  split at h
  · simp at h
  rename_i md2 hasm
  injection h with h1
  injection h1 with ha hb
  injection hb with hbmd hbls
  refine ⟨hbls.symm, ha.symm, sc, vs, hsc, hnv, ?_⟩
  rw [← hbmd]
  exact assembleRecord_ok_inv vs md2 hasm

/-- Inversion of channel resolution: the resolved channel is a member of
the label list, and is either the requested one or the head. -/
theorem resolveChannel_ok_inv (labels : List PyStr) (ch c : PyStr)
    (h : resolveChannel labels ch = .ok c) :
    c ∈ labels ∧ (c = ch ∨ labels.head? = some c) := by
  unfold resolveChannel at h
  split at h
  · rename_i hmem
    injection h with h
    subst h
    exact ⟨hmem, Or.inl rfl⟩
  · split at h
    · simp at h
    · injection h with h
      subst h
      exact ⟨List.mem_cons_self _ _, Or.inr rfl⟩

/-- Channel resolution falls back to the head when the requested channel
is absent. -/
theorem resolveChannel_not_mem (labels : List PyStr) (ch l0 : PyStr)
    (rest : List PyStr) (hmem : ch ∉ labels) (hl : labels = l0 :: rest) :
    resolveChannel labels ch = .ok l0 := by
  subst hl
  simp [resolveChannel, hmem]

/-- Channel resolution on an empty label list raises `IndexError`. -/
theorem resolveChannel_empty (ch : PyStr) :
    resolveChannel [] ch = .error .indexError := by
  simp [resolveChannel]

/-- `list.index` of the head is `0`. -/
theorem pyIndex_head (x : PyStr) (rest : List PyStr) :
    pyIndex x (x :: rest) = .ok 0 := by
  simp [pyIndex]

/-- `open_ibw` in terms of its stages, once resolution is evaluated. -/
theorem open_ibw_resolved (w : Wave) (ch c : PyStr) (idx : ℕ)
    (labels : List PyStr)
    (hcol : collectLabels w.labels = labels)
    (hres : resolveChannel labels ch = .ok c)
    (hidx : pyIndex c labels = .ok idx) :
    open_ibw w ch = afterChannel w labels c idx := by
  unfold open_ibw
  rw [hcol]
  simp [resolveAndRun, hres, hidx]

/-- `open_ibw` with an absent channel and a non-empty label list proceeds
with the head label at index `0`. -/
theorem open_ibw_fallback (w : Wave) (ch l0 : PyStr) (rest : List PyStr)
    (hcol : collectLabels w.labels = l0 :: rest) (hmem : ch ∉ l0 :: rest) :
    open_ibw w ch = afterChannel w (l0 :: rest) l0 0 :=
  open_ibw_resolved w ch l0 0 (l0 :: rest) hcol
    (resolveChannel_not_mem _ _ _ _ hmem rfl) (pyIndex_head _ _)

/-- `open_ibw` with an empty collected label list raises `IndexError`. -/
theorem open_ibw_empty_labels (w : Wave) (ch : PyStr)
    (hcol : collectLabels w.labels = []) :
    open_ibw w ch = .error .indexError := by
  unfold open_ibw
  rw [hcol]
  simp [resolveAndRun, resolveChannel_empty]

/-- Looking up the frame-count key in an assembled record. -/
theorem recGet_frameCount (v0 v1 v2 v3 v4 v5 v6 v7 v8 : MVal) :
    recGet? (STANDARDISED_METADATA_DICT_KEYS.zip [v0, v1, v2, v3, v4, v5, v6, v7, v8])
      keyFrameCount = some v0 := rfl

/-- Looking up the fps key in an assembled record. -/
theorem recGet_fps (v0 v1 v2 v3 v4 v5 v6 v7 v8 : MVal) :
    recGet? (STANDARDISED_METADATA_DICT_KEYS.zip [v0, v1, v2, v3, v4, v5, v6, v7, v8])
      keyFps = some v2 := rfl

/-- Looking up the line-rate key in an assembled record. -/
theorem recGet_lineRate (v0 v1 v2 v3 v4 v5 v6 v7 v8 : MVal) :
    recGet? (STANDARDISED_METADATA_DICT_KEYS.zip [v0, v1, v2, v3, v4, v5, v6, v7, v8])
      keyLineRate = some v3 := rfl

/-- Looking up the channel key in an assembled record. -/
theorem recGet_channel (v0 v1 v2 v3 v4 v5 v6 v7 v8 : MVal) :
    recGet? (STANDARDISED_METADATA_DICT_KEYS.zip [v0, v1, v2, v3, v4, v5, v6, v7, v8])
      keyChannel = some v7 := rfl

/-- Claim C4, counterexample: with the notes map `{"ScanLines": "abc"}`
(key present but non-numeric), the normalization stage raises `ValueError`
instead of defaulting the pixel-count field to `0`. -/
theorem C4_counterexample :
    dictGet? [(pstr "ScanLines", pstr "abc")] keyScanLines = some (pstr "abc") ∧
    normalizeValues [(pstr "ScanLines", pstr "abc")] 1 (pstr "H")
      = .error .valueError := by
  refine ⟨by decide, ?_⟩
  have h1 : readFloatD [(pstr "ScanLines", pstr "abc")] keyFastScanSize = .ok 0 :=
    readFloatD_absent _ _ (by decide)
  have h2 : readIntD [(pstr "ScanLines", pstr "abc")] keyScanLines
      = .error .valueError :=
    readIntD_bad _ _ (pstr "abc") (by decide) (by decide)
  simp [normalizeValues, h1, h2]

/-- Claim C4, amended: during normalization the fast-axis range is the
`FastScanSize` value × 1e9 and the pixel counts are the integer
`ScanLines`/`ScanPoints` values; an absent key defaults the field to `0`
without an exception, but a present non-numeric value raises `ValueError`
(the defaulting covers absence only, not parse failures). -/
theorem C4_note_field_defaults (md : Dict) :
    (dictGet? md keyFastScanSize = none → readFloatD md keyFastScanSize = .ok 0) ∧
    (dictGet? md keyScanLines = none → readIntD md keyScanLines = .ok 0) ∧
    (dictGet? md keyScanPoints = none → readIntD md keyScanPoints = .ok 0) ∧
    (∀ s q, dictGet? md keyFastScanSize = some s → pyFloat? s = some q →
      readFloatD md keyFastScanSize = .ok q) ∧
    (∀ s n, dictGet? md keyScanLines = some s → pyInt? s = some n →
      readIntD md keyScanLines = .ok n) ∧
    (∀ s n, dictGet? md keyScanPoints = some s → pyInt? s = some n →
      readIntD md keyScanPoints = .ok n) ∧
    (∀ s, dictGet? md keyFastScanSize = some s → pyFloat? s = none →
      readFloatD md keyFastScanSize = .error .valueError) ∧
    (∀ s, dictGet? md keyScanLines = some s → pyInt? s = none →
      readIntD md keyScanLines = .error .valueError) ∧
    (∀ sc ch vs, normalizeValues md sc ch = .ok vs →
      ∃ fss y x, readFloatD md keyFastScanSize = .ok fss ∧
        readIntD md keyScanLines = .ok y ∧
        readIntD md keyScanPoints = .ok x ∧
        vs[1]? = some (.vrat (fss * 1e9)) ∧
        vs[4]? = some (.vint y) ∧ vs[5]? = some (.vint x)) := by
  refine ⟨readFloatD_absent md _, readIntD_absent md _, readIntD_absent md _,
    fun s q h hp => readFloatD_present md _ s q h hp,
    fun s n h hp => readIntD_present md _ s n h hp,
    fun s n h hp => readIntD_present md _ s n h hp,
    fun s h hp => readFloatD_bad md _ s h hp,
    fun s h hp => readIntD_bad md _ s h hp, ?_⟩
  intro sc ch vs h
  obtain ⟨fss, y, x, r, lr, fps, h1, h2, h3, -, -, -, hvs⟩ :=
    normalizeValues_ok_inv md sc ch vs h
  subst hvs
  exact ⟨fss, y, x, h1, h2, h3, rfl, rfl, rfl⟩

/-- Witness for C4 at concrete notes maps. -/
theorem C4_witness :
    readFloatD [] keyFastScanSize = .ok 0 ∧
    readIntD [] keyScanLines = .ok 0 ∧
    readFloatD [(keyFastScanSize, pstr "2")] keyFastScanSize = .ok 2 :=
  ⟨(C4_note_field_defaults []).1 rfl, (C4_note_field_defaults []).2.1 rfl,
   (C4_note_field_defaults [(keyFastScanSize, pstr "2")]).2.2.2.1
     (pstr "2") 2 (by decide) pyFloat_2⟩

/-- Claim C5, counterexample: with slow-axis pixel count `0` (note absent)
and scan rate `2`, the fps divisor `0 * 2` is zero and the computation —
reached through normalization — raises `ZeroDivisionError`, so the claim
that the division never has a zero divisor is false. -/
theorem C5_counterexample :
    computeFps 0 2 = .error .zeroDivisionError ∧
    normalizeValues [(pstr "ScanRate", pstr "2")] 1 (pstr "H")
      = .error .zeroDivisionError := by
  refine ⟨computeFps_y0 2 (by norm_num), ?_⟩
  have h1 : readFloatD [(pstr "ScanRate", pstr "2")] keyFastScanSize = .ok 0 :=
    readFloatD_absent _ _ (by decide)
  have h2 : readIntD [(pstr "ScanRate", pstr "2")] keyScanLines = .ok 0 :=
    readIntD_absent _ _ (by decide)
  have h3 : readIntD [(pstr "ScanRate", pstr "2")] keyScanPoints = .ok 0 :=
    readIntD_absent _ _ (by decide)
  have h4 : readFloatD [(pstr "ScanRate", pstr "2")] keyScanRate = .ok 2 :=
    readFloatD_present _ _ (pstr "2") 2 (by decide) pyFloat_2
  have h5 := computeLineRate_y0 (2 : ℚ)
  have h6 := computeFps_y0 (2 : ℚ) (by norm_num)
  simp [normalizeValues, h1, h2, h3, h4, h5, h6]

/-- Claim C5, amended: fps is `1/(y_pixels·scan_rate)` when both are
non-zero and `0` when the scan rate is `0`; but the guard checks the scan
rate only, so a zero pixel count with a non-zero rate leaves the divisor
zero and the computation raises `ZeroDivisionError`. -/
theorem C5_fps_guard (y : ℤ) (r : ℚ) :
    (r = 0 → computeFps y r = .ok 0) ∧
    (r ≠ 0 → y ≠ 0 → computeFps y r = .ok (1 / ((y : ℚ) * r))) ∧
    (r ≠ 0 → y = 0 → computeFps y r = .error .zeroDivisionError) := by
  refine ⟨?_, ?_, ?_⟩
  · rintro rfl
    exact computeFps_r0 y
  · intro hr hy
    exact computeFps_pos y r hy hr
  · rintro hr rfl
    exact computeFps_y0 r hr

/-- Witness for C5 at concrete values. -/
theorem C5_witness : computeFps 4 2 = .ok (1 / (((4 : ℤ) : ℚ) * 2)) :=
  (C5_fps_guard 4 2).2.1 (by norm_num) (by norm_num)

/-- Claim C6, counterexample: a wave whose collected non-empty label list
is empty makes decode raise `IndexError` (at `labels[0]`) for any
requested channel, instead of returning the index-0 channel data. -/
theorem C6_counterexample :
    collectLabels wEmptyLabels.labels = [] ∧
    open_ibw wEmptyLabels (pstr "Height") = .error .indexError :=
  ⟨by decide, open_ibw_empty_labels _ _ (by decide)⟩

/-- Claim C6, amended: when the collected label list is non-empty and the
requested channel is absent, decode proceeds exactly as if the label at
index 0 had been requested (channel index 0; later stages unchanged and
may still fail for metadata reasons); when the label list is empty, decode
raises `IndexError`. -/
theorem C6_channel_fallback (w : Wave) (ch : PyStr) :
    (∀ l0 rest, collectLabels w.labels = l0 :: rest → ch ∉ l0 :: rest →
      open_ibw w ch = afterChannel w (l0 :: rest) l0 0) ∧
    (collectLabels w.labels = [] → open_ibw w ch = .error .indexError) :=
  ⟨fun l0 rest hcol hmem => open_ibw_fallback w ch l0 rest hcol hmem,
   open_ibw_empty_labels w ch⟩

/-- Witness for C6: requesting an absent channel on `wGood` proceeds with
its only label at index 0. -/
theorem C6_witness :
    open_ibw wGood (pstr "Absent")
      = afterChannel wGood [pstr "Height"] (pstr "Height") 0 :=
  (C6_channel_fallback wGood (pstr "Absent")).1 (pstr "Height") []
    (by decide) (by decide)

/-- Claim C8: every normalization that succeeds yields exactly as many
values as the schema has keys, and assembly zips the schema keys with the
values in order; when the lengths disagree, assembly fails with the
schema-mismatch error instead of returning a record. -/
theorem C8_schema_invariant :
    (∀ md sc ch vs, normalizeValues md sc ch = .ok vs →
      vs.length = STANDARDISED_METADATA_DICT_KEYS.length ∧
      assembleRecord vs = .ok (STANDARDISED_METADATA_DICT_KEYS.zip vs)) ∧
    (∀ vs : List MVal, vs.length ≠ STANDARDISED_METADATA_DICT_KEYS.length →
      assembleRecord vs = .error .valueError) := by
  constructor
  · intro md sc ch vs h
    obtain ⟨fss, y, x, r, lr, fps, -, -, -, -, -, -, hvs⟩ :=
      normalizeValues_ok_inv md sc ch vs h
    subst hvs
    exact ⟨rfl, by simp [assembleRecord, STANDARDISED_METADATA_DICT_KEYS]⟩
  · intro vs h
    simp [assembleRecord, h]

/-- Witness for C8: the all-defaults normalization output has the schema
length and assembles into the zipped record. -/
theorem C8_witness :
    ([MVal.vint 1, .vrat (0 * 1e9), .vrat 0, .vrat 0, .vint 0, .vint 0,
      .vrat 1, .vstr (pstr "H"), .vnone] : List MVal).length
        = STANDARDISED_METADATA_DICT_KEYS.length ∧
    assembleRecord [MVal.vint 1, .vrat (0 * 1e9), .vrat 0, .vrat 0,
      .vint 0, .vint 0, .vrat 1, .vstr (pstr "H"), .vnone]
      = .ok (STANDARDISED_METADATA_DICT_KEYS.zip
          [MVal.vint 1, .vrat (0 * 1e9), .vrat 0, .vrat 0, .vint 0,
           .vint 0, .vrat 1, .vstr (pstr "H"), .vnone]) :=
  C8_schema_invariant.1 [] 1 (pstr "H") _
    (normalizeValues_eval [] 1 (pstr "H") 0 0 0 0 0 0
      (readFloatD_absent _ _ rfl) (readIntD_absent _ _ rfl)
      (readIntD_absent _ _ rfl) (readFloatD_absent _ _ rfl)
      (computeLineRate_y0 0) (computeFps_r0 0))

/-- Claim C10: whenever decode succeeds, the returned label list is
non-empty and the channel name stored in the standardized record is a
member of that list — the requested name or the label at index 0. -/
theorem C10_record_channel_member (w : Wave) (ch : PyStr) (img : NpMat)
    (md : MetaRecord) (ls : List PyStr)
    (h : open_ibw w ch = .ok (img, md, ls)) :
    ls ≠ [] ∧ ∃ c, recGet? md keyChannel = some (.vstr c) ∧ c ∈ ls ∧
      (c = ch ∨ ls.head? = some c) := by
  unfold open_ibw resolveAndRun at h
  split at h
  · simp at h
  rename_i c hres
  split at h
  · simp at h
  rename_i idx hidx
  obtain ⟨hmem, hor⟩ := resolveChannel_ok_inv _ _ _ hres
  obtain ⟨hls, -, sc, vs, -, hnv, hmd⟩ := afterChannel_ok_inv _ _ _ _ _ _ _ h
  obtain ⟨fss, y, x, r, lr, fps, -, -, -, -, -, -, hvs⟩ :=
    normalizeValues_ok_inv _ _ _ _ hnv
  subst hls hmd hvs
  exact ⟨List.ne_nil_of_mem hmem, c,
    recGet_channel _ _ _ _ _ _ _ _ _, hmem, hor⟩

/-- A fully evaluated successful decode of `wGood`. -/
theorem wGood_open :
    open_ibw wGood (pstr "Height")
      = .ok (ibwImage wGood 0,
             STANDARDISED_METADATA_DICT_KEYS.zip wGoodVals,
             [pstr "Height"]) := by
  rw [open_ibw_resolved wGood (pstr "Height") (pstr "Height") 0
        [pstr "Height"] (by decide) (by decide) (by decide)]
  have hsc : _ibw_pixel_to_nm_scaling wGood.note wGood.wDataR wGood.wDataC
      = .ok (1 / ((1e-9 : ℚ) / ((2 : ℕ) : ℚ) * 1e9)) :=
    scaling_eval _ 2 2 (pstr "1e-9") (pstr "1e-9") (1e-9) (1e-9)
      (by decide) pyFloat_1em9 (by decide) pyFloat_1em9 (by norm_num)
      (by norm_num)
  have hnv : normalizeValues (extract_metadata wGood.note)
      (1 / ((1e-9 : ℚ) / ((2 : ℕ) : ℚ) * 1e9)) (pstr "Height")
      = .ok wGoodVals :=
    normalizeValues_eval _ _ _ (1e-9) 2 2 2 (1 / 2) (1 / (((2 : ℤ) : ℚ) * 2))
      (readFloatD_present _ _ (pstr "1e-9") _ (by decide) pyFloat_1em9)
      (readIntD_present _ _ (pstr "2") 2 (by decide) (by decide))
      (readIntD_present _ _ (pstr "2") 2 (by decide) (by decide))
      (readFloatD_present _ _ (pstr "2") 2 (by decide) pyFloat_2)
      (computeLineRate_pos 2 2 (by norm_num) (by norm_num))
      (computeFps_pos 2 2 (by norm_num) (by norm_num))
  exact afterChannel_eval wGood [pstr "Height"] (pstr "Height") 0 _
    wGoodVals hsc hnv rfl

/-- Witness for C10 on the concrete successful decode of `wGood`. -/
theorem C10_witness :
    ([pstr "Height"] : List PyStr) ≠ [] ∧
    ∃ c, recGet? (STANDARDISED_METADATA_DICT_KEYS.zip wGoodVals) keyChannel
        = some (.vstr c) ∧ c ∈ [pstr "Height"] ∧
      (c = pstr "Height" ∨ ([pstr "Height"] : List PyStr).head? = some c) :=
  C10_record_channel_member wGood (pstr "Height") (ibwImage wGood 0)
    (STANDARDISED_METADATA_DICT_KEYS.zip wGoodVals) [pstr "Height"]
    wGood_open

/-- Claim C3, counterexample: the scenario note lacks `SlowScanSize`,
which the scaling stage hard-requires, so decoding the fabricated 4×4 wave
raises `KeyError` instead of succeeding (the same holds under either
reading of the note's line separators, since the key is absent either
way). -/
theorem C3_counterexample :
    open_ibw wScenario (pstr "Height") = .error .keyError := by
  rw [open_ibw_resolved wScenario (pstr "Height") (pstr "Height") 0
        [pstr "Height"] (by decide) (by decide) (by decide)]
  exact afterChannel_scaling_error _ _ _ _ _
    (scaling_missing_slow _ _ _ (by decide))

/-- A fully evaluated successful decode of `wScenarioFix`. -/
theorem wScenarioFix_open :
    open_ibw wScenarioFix (pstr "Height")
      = .ok (ibwImage wScenarioFix 0,
             STANDARDISED_METADATA_DICT_KEYS.zip wScenarioFixVals,
             [pstr "Height"]) := by
  rw [open_ibw_resolved wScenarioFix (pstr "Height") (pstr "Height") 0
        [pstr "Height"] (by decide) (by decide) (by decide)]
  have hsc : _ibw_pixel_to_nm_scaling wScenarioFix.note wScenarioFix.wDataR
      wScenarioFix.wDataC
      = .ok (1 / ((4e-9 : ℚ) / ((4 : ℕ) : ℚ) * 1e9)) :=
    scaling_eval _ 4 4 (pstr "4e-9") (pstr "4e-9") (4e-9) (4e-9)
      (by decide) pyFloat_4em9 (by decide) pyFloat_4em9 (by norm_num)
      (by norm_num)
  have hnv : normalizeValues (extract_metadata wScenarioFix.note)
      (1 / ((4e-9 : ℚ) / ((4 : ℕ) : ℚ) * 1e9)) (pstr "Height")
      = .ok wScenarioFixVals :=
    normalizeValues_eval _ _ _ (4e-9) 4 4 2 (1 / 2) (1 / (((4 : ℤ) : ℚ) * 2))
      (readFloatD_present _ _ (pstr "4e-9") _ (by decide) pyFloat_4em9)
      (readIntD_present _ _ (pstr "4") 4 (by decide) (by decide))
      (readIntD_present _ _ (pstr "4") 4 (by decide) (by decide))
      (readFloatD_present _ _ (pstr "2") 2 (by decide) pyFloat_2)
      (computeLineRate_pos 4 2 (by norm_num) (by norm_num))
      (computeFps_pos 4 2 (by norm_num) (by norm_num))
  exact afterChannel_eval wScenarioFix [pstr "Height"] (pstr "Height") 0 _
    wScenarioFixVals hsc hnv rfl

/-- Claim C3, amended: with `SlowScanSize:4e-9` added to the note (the
scaling stage requires it) and the separators being the stringified
backslash–`r` sequence, the fabricated single-channel 4×4 wave decodes to
a 4×4 image with frame count 1, fps `0.125` and line rate `0.5`. -/
theorem C3_scenario_decodes :
    (open_ibw wScenarioFix (pstr "Height")).map
        (fun t => (t.1.rows, t.1.cols)) = .ok (4, 4) ∧
    (open_ibw wScenarioFix (pstr "Height")).map
        (fun t => recGet? t.2.1 keyFrameCount) = .ok (some (.vint 1)) ∧
    (open_ibw wScenarioFix (pstr "Height")).map
        (fun t => recGet? t.2.1 keyFps) = .ok (some (.vrat 0.125)) ∧
    (open_ibw wScenarioFix (pstr "Height")).map
        (fun t => recGet? t.2.1 keyLineRate) = .ok (some (.vrat 0.5)) := by
  rw [wScenarioFix_open]
  refine ⟨rfl, rfl, ?_, ?_⟩
  · simp only [Except.map, wScenarioFixVals]
    rw [recGet_fps]
    norm_num
  · simp only [Except.map, wScenarioFixVals]
    rw [recGet_lineRate]
    norm_num
